import Mathlib

/-!
Shallow embedding of the Forth interpreter in src/forth.c / src/forth.h
(wingersoft/forth-interpreter).

Modelling conventions:
* `Cell` (C `long long`) is modelled as `Int`.  All inputs exercised here
  stay far below 2^63, so C overflow (undefined behaviour) is never reached.
* the C globals (`data_stack`, `return_stack`, `branch_stack`, `dict`,
  `memory`, `base`, `state`, `code_buffer`, `code_sp`, `current_word`,
  `next_mem_addr`, `input_pos`) are gathered in one state record `Machine`,
  together with the text written to stdout (`out`) and stderr (`err`).
* stacks are lists with the head as top of stack (`sp = length - 1`).
* the dictionary is the list of words in insertion order (index 0 is the
  word added first); `dict_find` scans from index 0, as the C loop does.
* a `Word*` pointer stored in a code cell is modelled as the integer
  `wordAddr i = 1000000 + i` where `i` is the word's dictionary index.
  Like a real heap address it lies inside the executor's pointer-detection
  window `1000 < item < 10^16`; dereferencing an integer in that window
  that is not a valid `wordAddr` is undefined behaviour in C and is
  modelled as the "Invalid word reference" error branch of `execute_word`.
* `malloc` failure paths are not modelled (allocation always succeeds).
  The C code never initialises the `immediate` field of words built by
  `colon`, `create_word`, `variable_word` and `constant_word` (an
  uninitialised read if it were consulted); it is modelled as `false` and
  no execution in this file consults it for those words.
* `base` is initialised to 10 and no registered word ever modifies it, so
  numeric parsing (`strtoll(token, &endptr, base)` with full-token
  consumption check) is modelled in base 10 by `parse_num`.
* reads of `code[j]` outside the code array are undefined behaviour in C;
  `getCell` totalises them as 0 and no execution in this file reaches one.
* the ghost field `codeWrites` records every index written into
  `code_buffer` (most recent first); the C code has no such variable.
  It only observes where writes land, for the bounds claims.
* unbounded loops and recursion are driven by an explicit fuel parameter;
  fuel exhaustion returns the current state and is never reached by the
  concrete executions below.
-/

namespace Forth

/-- Core system constants from forth.h. -/
def STACK_SIZE : Nat := 1024

def DICT_SIZE : Nat := 1024

def MAX_WORD_LEN : Nat := 32

def MAX_LINE_LEN : Nat := 256

/-- Opcodes for threaded code (forth.h). -/
def OP_LIT : Int := -1

def OP_BRANCH : Int := -2

def OP_0BRANCH : Int := -3

def OP_DO : Int := -4

def OP_LOOP : Int := -5

def OP_J : Int := -6

/-- ControlFlowType enum from forth.h. -/
inductive ControlFlowType where
  | CF_IF
  | CF_ELSE
  | CF_BEGIN
  | CF_WHILE
  | CF_DO
  | CF_UNTIL
  | CF_REPEAT
  | CF_END
deriving DecidableEq, Repr

/-- BranchEntry: an entry of the branch stack (forth.h). -/
structure BranchEntry where
  origin : Nat
  type : ControlFlowType
deriving DecidableEq, Repr

/-- Identities of the built-in handler functions (the C function pointers
stored in `Word.func`). -/
inductive Prim where
  | plusP | minusP | starP | slashP | modP
  | dupP | dropP | swapP | overP | rotP | nipP | tuckP
  | equalP | lessThanP | greaterThanP | lessEqualP | greaterEqualP | notEqualP
  | andOpP | orOpP | notOpP
  | storeP | fetchP
  | createP | variableP | constantP
  | dotP | dotQuoteP | cellsP | allotP | iP | jP | dotSP | crP
  | ifP | thenP | elseP | beginP | untilP | whileP | repeatP | doP | loopP | endP
  | colonP | semicolonP
deriving DecidableEq, Repr

/-- Word record (forth.h): `func` is the built-in handler (NULL for
user-defined words), `code` the threaded-code array (`code_size` is its
length), `immediate` the immediate flag.  The unused `next` pointer is
omitted. -/
structure Word where
  name : String
  func : Option Prim
  code : List Int
  immediate : Bool
deriving DecidableEq, Repr

/-- The global interpreter state of forth.c, plus the observable output
streams and the ghost trace of code-buffer writes. -/
structure Machine where
  dataStack : List Int
  returnStack : List Int
  branchStack : List BranchEntry
  dict : List Word
  memory : Int → Int
  base : Int
  state : Bool
  codeBuffer : Nat → Int
  codeSp : Nat
  currentWord : Option Word
  nextMemAddr : Int
  input : List Char
  out : List String
  err : List String
  codeWrites : List Nat

/-- error(): print to stderr, then clear the three stacks, return to
interpret mode, reset the code-buffer pointer and drop the word being
compiled (forth.c lines 257-267). -/
def error (msg : String) (s : Machine) : Machine :=
  { s with
    err := s.err ++ [msg]
    dataStack := []
    returnStack := []
    branchStack := []
    state := false
    codeSp := 0
    currentWord := none }

/-- stack_push: push onto the data stack, "Stack overflow" when
`sp >= STACK_SIZE - 1`. -/
def stack_push (value : Int) (s : Machine) : Machine :=
  if s.dataStack.length ≥ STACK_SIZE then error ("Stack overflow") s
  else { s with dataStack := value :: s.dataStack }

/-- stack_pop: pop the data stack; on underflow report the error and
return 0 (the caller continues). -/
def stack_pop (s : Machine) : Int × Machine :=
  match s.dataStack with
  | [] => (0, error ("Stack underflow") s)
  | v :: rest => (v, { s with dataStack := rest })

/-- stack_peek: read the top of the data stack without removing it. -/
def stack_peek (s : Machine) : Int × Machine :=
  match s.dataStack with
  | [] => (0, error ("Stack underflow") s)
  | v :: _ => (v, s)

/-- rstack_push: push onto the return stack. -/
def rstack_push (value : Int) (s : Machine) : Machine :=
  if s.returnStack.length ≥ STACK_SIZE then error ("Return stack overflow") s
  else { s with returnStack := value :: s.returnStack }

/-- rstack_pop: pop the return stack; 0 on underflow. -/
def rstack_pop (s : Machine) : Int × Machine :=
  match s.returnStack with
  | [] => (0, error ("Return stack underflow") s)
  | v :: rest => (v, { s with returnStack := rest })

/-- rstack_peek: top of the return stack without removing it. -/
def rstack_peek (s : Machine) : Int × Machine :=
  match s.returnStack with
  | [] => (0, error ("Return stack underflow") s)
  | v :: _ => (v, s)

/-- rstack_peek_n: the value `n` positions below the top of the return
stack (`sp < n` is an underflow). -/
def rstack_peek_n (n : Nat) (s : Machine) : Int × Machine :=
  if s.returnStack.length < n + 1 then (0, error ("Return stack underflow") s)
  else ((s.returnStack.get? n).getD 0, s)

/-- branch_stack_push. -/
def branch_stack_push (origin : Nat) (type : ControlFlowType) (s : Machine) :
    Machine :=
  if s.branchStack.length ≥ STACK_SIZE then error ("Branch stack overflow") s
  else { s with branchStack := ⟨origin, type⟩ :: s.branchStack }

/-- branch_stack_pop: the empty entry `{0, CF_END}` on underflow. -/
def branch_stack_pop (s : Machine) : BranchEntry × Machine :=
  match s.branchStack with
  | [] => (⟨0, ControlFlowType.CF_END⟩, error ("Branch stack underflow") s)
  | e :: rest => (e, { s with branchStack := rest })

/-- branch_stack_peek. -/
def branch_stack_peek (s : Machine) : BranchEntry × Machine :=
  match s.branchStack with
  | [] => (⟨0, ControlFlowType.CF_END⟩, error ("Branch stack underflow") s)
  | e :: _ => (e, s)

/-- branch_stack_empty. -/
def branch_stack_empty (s : Machine) : Bool :=
  s.branchStack.isEmpty

/-- dict_find: linear scan from index 0; the first word whose name equals
`name` byte for byte wins.  The returned index models the `Word*` the C
function returns. -/
def dict_find_aux : List Word → Nat → String → Option (Nat × Word)
  | [], _, _ => none
  | w :: ws, i, name =>
      if w.name = name then some (i, w) else dict_find_aux ws (i + 1) name

/-- dict_find over the machine's dictionary. -/
def dict_find (s : Machine) (name : String) : Option (Nat × Word) :=
  dict_find_aux s.dict 0 name

/-- dict_add: append a word, "Dictionary full" at capacity. -/
def dict_add (w : Word) (s : Machine) : Machine :=
  if s.dict.length ≥ DICT_SIZE then error ("Dictionary full") s
  else { s with dict := s.dict ++ [w] }

/-- mem_store with the bounds check of forth.c. -/
def mem_store (addr : Int) (value : Int) (s : Machine) : Machine :=
  if addr < 0 ∨ (STACK_SIZE : Int) ≤ addr then error ("Invalid memory address") s
  else { s with memory := fun a => if a = addr then value else s.memory a }

/-- mem_fetch with the bounds check of forth.c. -/
def mem_fetch (addr : Int) (s : Machine) : Int × Machine :=
  if addr < 0 ∨ (STACK_SIZE : Int) ≤ addr then (0, error ("Invalid memory address") s)
  else (s.memory addr, s)

/-- print_cell: printf("%lld ", value). -/
def print_cell (value : Int) (s : Machine) : Machine :=
  { s with out := s.out ++ [toString value ++ " "] }

/-- print_stack: "< " then every cell bottom first, then "> ". -/
def print_stack (s : Machine) : Machine :=
  { s with out :=
      s.out ++ ["< "] ++ (s.dataStack.reverse.map fun v => toString v ++ " ") ++ ["> "] }

/-- cr: print a newline. -/
def cr (s : Machine) : Machine :=
  { s with out := s.out ++ ["\n"] }

/-- isspace() of ctype.h on the characters that can occur in input. -/
def isCSpace (c : Char) : Bool :=
  c = ' ' || c = '\t' || c = '\n' || c = '\r' || c = '\x0b' || c = '\x0c'

/-- tokenize() (forth.c lines 1628-1656) as a function of the remaining
input: skip leading whitespace; at end of input return none; if the next
two bytes are `."` yield exactly them; otherwise yield the maximal
non-whitespace run (truncated to MAX_WORD_LEN - 1 bytes) and consume the
terminating whitespace byte when there is one. -/
def tokenize0 (inp : List Char) : Option (String × List Char) :=
  let inp := inp.dropWhile isCSpace
  match inp with
  | [] => none
  | c1 :: rest1 =>
      if c1 = '.' ∧ rest1.headD ' ' = '"' ∧ rest1 ≠ [] then
        some (".\"", rest1.tail)
      else
        let tok := inp.takeWhile (fun c => !isCSpace c)
        let rest := inp.dropWhile (fun c => !isCSpace c)
        let rest := match rest with
          | [] => []
          | _ :: r => r
        some (String.mk (tok.take (MAX_WORD_LEN - 1)), rest)

/-- tokenize() acting on the machine's input cursor (`input_pos`). -/
def tokenize (s : Machine) : Option String × Machine :=
  match tokenize0 s.input with
  | none => (none, { s with input := [] })
  | some (tok, rest) => (some tok, { s with input := rest })

/-- parse_string() (forth.c lines 1663-1681): skip whitespace, read up to
the closing `"` (which is consumed); none when no closing quote exists
before end of input, with the cursor then at end of input. -/
def parse_string (s : Machine) : Option String × Machine :=
  let rest0 := s.input.dropWhile isCSpace
  let content := rest0.takeWhile (fun c => !(c = '"'))
  let rest1 := rest0.dropWhile (fun c => !(c = '"'))
  match rest1 with
  | [] => (none, { s with input := [] })
  | _ :: r => (some (String.mk content), { s with input := r })

/-- Value of a nonempty all-decimal-digit character list. -/
def digitsVal : List Char → Option Int
  | [] => none
  | l =>
      if l.all (fun c => '0' ≤ c && c ≤ '9') then
        some (l.foldl (fun a c => a * 10 + ((c.toNat : Int) - 48)) 0)
      else none

/-- strtoll(token, &endptr, base) followed by the `*endptr == '\0'` check
of the REPL: the whole token must be an optional sign followed by digits.
`base` is 10 throughout the program (nothing ever changes it). -/
def parse_num (t : String) : Option Int :=
  match t.toList with
  | '-' :: rest => (digitsVal rest).map (fun n => -n)
  | '+' :: rest => digitsVal rest
  | l => digitsVal l

/-- plus: ( a b -- a+b ).  Underflow inside a pop reports the error,
clears the stacks and yields 0, and the handler keeps going, exactly as
the C functions do after error() returns. -/
def plus (s : Machine) : Machine :=
  let (b, s) := stack_pop s
  let (a, s) := stack_pop s
  stack_push (a + b) s

/-- minus: ( a b -- a-b ). -/
def minus (s : Machine) : Machine :=
  let (b, s) := stack_pop s
  let (a, s) := stack_pop s
  stack_push (a - b) s

/-- star: ( a b -- a*b ). -/
def star (s : Machine) : Machine :=
  let (b, s) := stack_pop s
  let (a, s) := stack_pop s
  stack_push (a * b) s

/-- slash: ( a b -- a/b ), C division truncates toward zero (Int.div). -/
def slash (s : Machine) : Machine :=
  let (b, s) := stack_pop s
  if b = 0 then error ("Division by zero") s
  else
    let (a, s) := stack_pop s
    stack_push (Int.tdiv a b) s

/-- mod: ( a b -- a%b ), C remainder pairs with truncating division
(Int.mod). -/
def modW (s : Machine) : Machine :=
  let (b, s) := stack_pop s
  if b = 0 then error ("Modulo by zero") s
  else
    let (a, s) := stack_pop s
    stack_push (Int.tmod a b) s

/-- dup: ( a -- a a ). -/
def dup (s : Machine) : Machine :=
  let (t, s) := stack_peek s
  stack_push t s

/-- drop: ( a -- ). -/
def drop (s : Machine) : Machine :=
  (stack_pop s).2

/-- swap: ( a b -- b a ). -/
def swap (s : Machine) : Machine :=
  let (b, s) := stack_pop s
  let (a, s) := stack_pop s
  let s := stack_push b s
  stack_push a s

/-- over: ( a b -- a b a ). -/
def over (s : Machine) : Machine :=
  let (b, s) := stack_pop s
  let (a, s) := stack_pop s
  let s := stack_push a s
  let s := stack_push b s
  stack_push a s

/-- rot: ( a b c -- b c a ). -/
def rot (s : Machine) : Machine :=
  let (c, s) := stack_pop s
  let (b, s) := stack_pop s
  let (a, s) := stack_pop s
  let s := stack_push b s
  let s := stack_push c s
  stack_push a s

/-- nip: ( a b -- b ). -/
def nip (s : Machine) : Machine :=
  let (b, s) := stack_pop s
  let (_, s) := stack_pop s
  stack_push b s

/-- tuck: ( a b -- b a b ). -/
def tuck (s : Machine) : Machine :=
  let (b, s) := stack_pop s
  let (a, s) := stack_pop s
  let s := stack_push b s
  let s := stack_push a s
  stack_push b s

/-- equal: ( a b -- flag ), -1 true / 0 false. -/
def equal (s : Machine) : Machine :=
  let (b, s) := stack_pop s
  let (a, s) := stack_pop s
  stack_push (if a = b then -1 else 0) s

/-- less_than. -/
def less_than (s : Machine) : Machine :=
  let (b, s) := stack_pop s
  let (a, s) := stack_pop s
  stack_push (if a < b then -1 else 0) s

/-- greater_than. -/
def greater_than (s : Machine) : Machine :=
  let (b, s) := stack_pop s
  let (a, s) := stack_pop s
  stack_push (if a > b then -1 else 0) s

/-- less_equal. -/
def less_equal (s : Machine) : Machine :=
  let (b, s) := stack_pop s
  let (a, s) := stack_pop s
  stack_push (if a ≤ b then -1 else 0) s

/-- greater_equal. -/
def greater_equal (s : Machine) : Machine :=
  let (b, s) := stack_pop s
  let (a, s) := stack_pop s
  stack_push (if a ≥ b then -1 else 0) s

/-- not_equal. -/
def not_equal (s : Machine) : Machine :=
  let (b, s) := stack_pop s
  let (a, s) := stack_pop s
  stack_push (if a ≠ b then -1 else 0) s

/-- and_op: bitwise AND (two's complement). -/
def and_op (s : Machine) : Machine :=
  let (b, s) := stack_pop s
  let (a, s) := stack_pop s
  stack_push (Int.land a b) s

/-- or_op: bitwise OR. -/
def or_op (s : Machine) : Machine :=
  let (b, s) := stack_pop s
  let (a, s) := stack_pop s
  stack_push (Int.lor a b) s

/-- not_op: bitwise complement. -/
def not_op (s : Machine) : Machine :=
  let (a, s) := stack_pop s
  stack_push (Int.lnot a) s

/-- store: ( value addr -- ). -/
def store (s : Machine) : Machine :=
  let (addr, s) := stack_pop s
  let (value, s) := stack_pop s
  mem_store addr value s

/-- fetch: ( addr -- value ). -/
def fetch (s : Machine) : Machine :=
  let (addr, s) := stack_pop s
  let (value, s) := mem_fetch addr s
  stack_push value s

/-- create_word: parse a name, build a word whose code pushes the current
free memory address (not advanced); no duplicate-name check. -/
def create_word (s : Machine) : Machine :=
  match tokenize s with
  | (none, s) => error ("CREATE needs a name") s
  | (some name, s) =>
      let addr := s.nextMemAddr
      dict_add { name := name, func := none, code := [OP_LIT, addr],
                 immediate := false } s

/-- variable_word: parse a name, allocate one memory cell, build a word
whose code pushes the allocated address; no duplicate-name check. -/
def variable_word (s : Machine) : Machine :=
  match tokenize s with
  | (none, s) => error ("VARIABLE needs a name") s
  | (some name, s) =>
      let addr := s.nextMemAddr
      let s := { s with nextMemAddr := s.nextMemAddr + 1 }
      dict_add { name := name, func := none, code := [OP_LIT, addr],
                 immediate := false } s

/-- constant_word: parse a name, pop the value, build a word whose code
pushes that value; no duplicate-name check. -/
def constant_word (s : Machine) : Machine :=
  match tokenize s with
  | (none, s) => error ("CONSTANT needs a name") s
  | (some name, s) =>
      let (value, s) := stack_pop s
      dict_add { name := name, func := none, code := [OP_LIT, value],
                 immediate := false } s

/-- dot: pop and print one cell. -/
def dot (s : Machine) : Machine :=
  let (value, s) := stack_pop s
  print_cell value s

/-- dot_s. -/
def dot_s (s : Machine) : Machine :=
  print_stack s

/-- dot_quote (forth.c lines 807-815): parse the string payload and print
it at once (also when the interpreter is compiling — `."` is registered
immediate, so this runs during compilation and records nothing in the
word being compiled). -/
def dot_quote (s : Machine) : Machine :=
  match parse_string s with
  | (none, s) => error ("Expected string after .\"") s
  | (some str, s) => { s with out := s.out ++ [str] }

/-- cells_word: ( n -- n*sizeof(Cell) ), sizeof(long long) = 8. -/
def cells_word (s : Machine) : Machine :=
  let (n, s) := stack_pop s
  stack_push (n * 8) s

/-- allot_word: advance the free memory cursor. -/
def allot_word (s : Machine) : Machine :=
  let (n, s) := stack_pop s
  { s with nextMemAddr := s.nextMemAddr + n }

/-- i_word: push the top of the return stack. -/
def i_word (s : Machine) : Machine :=
  let (v, s) := rstack_peek s
  stack_push v s

/-- j_word: push the return-stack entry two below the top. -/
def j_word (s : Machine) : Machine :=
  let (v, s) := rstack_peek_n 2 s
  stack_push v s

/-- One write `code_buffer[idx] = v`.  The index is also recorded in the
ghost trace `codeWrites` (most recent first).  None of the control-flow
words perform any bounds check before writing. -/
def code_write (idx : Nat) (v : Int) (s : Machine) : Machine :=
  { s with
    codeBuffer := fun j => if j = idx then v else s.codeBuffer j
    codeWrites := idx :: s.codeWrites }

/-- The C idiom `code_buffer[code_sp++] = v`. -/
def emit (v : Int) (s : Machine) : Machine :=
  let s := code_write s.codeSp v s
  { s with codeSp := s.codeSp + 1 }

/-- if_word: in compile mode push an IF entry recording the current code
position and emit `OP_0BRANCH, OP_LIT, 0` (offset patched later). -/
def if_word (s : Machine) : Machine :=
  if s.state then
    let s := branch_stack_push s.codeSp ControlFlowType.CF_IF s
    let s := emit OP_0BRANCH s
    let s := emit OP_LIT s
    emit 0 s
  else error ("IF used outside of compilation mode") s

/-- then_word: pop the IF/ELSE entry and patch its offset slot
(`origin + 2`) with `code_sp - (origin + 2)`. -/
def then_word (s : Machine) : Machine :=
  if s.state then
    if branch_stack_empty s then error ("THEN without matching IF") s
    else
      let (entry, s) := branch_stack_pop s
      if entry.type ≠ ControlFlowType.CF_IF ∧ entry.type ≠ ControlFlowType.CF_ELSE then
        error ("THEN without matching IF") s
      else
        code_write (entry.origin + 2)
          ((s.codeSp : Int) - ((entry.origin : Int) + 2)) s
  else error ("THEN used outside of compilation mode") s

/-- else_word: emit `OP_BRANCH, OP_LIT, 0`, then patch the pending IF's
offset slot with `(code_sp + 3) - (origin + 2)` (the value the C code
computes), and replace the IF entry by an ELSE entry recording the new
branch's position. -/
def else_word (s : Machine) : Machine :=
  if s.state then
    if branch_stack_empty s then error ("ELSE without matching IF") s
    else
      let (entry, s) := branch_stack_peek s
      if entry.type ≠ ControlFlowType.CF_IF then
        error ("ELSE without matching IF") s
      else
        let else_branch_origin := s.codeSp
        let s := emit OP_BRANCH s
        let s := emit OP_LIT s
        let s := emit 0 s
        let if_offset : Int := ((s.codeSp : Int) + 3) - ((entry.origin : Int) + 2)
        let s := code_write (entry.origin + 2) if_offset s
        let (_, s) := branch_stack_pop s
        branch_stack_push else_branch_origin ControlFlowType.CF_ELSE s
  else error ("ELSE used outside of compilation mode") s

/-- end_word: a registered placeholder that does nothing. -/
def end_word (s : Machine) : Machine :=
  s

/-- colon: read the defining word's name; reject it when it already
exists; otherwise start a fresh current word, enter compile mode and
reset the code-buffer pointer. -/
def colon (s : Machine) : Machine :=
  match tokenize s with
  | (none, s) => error ("Expected word name after :\"") s
  | (some word_name, s) =>
      match dict_find s word_name with
      | some _ => error ("Word already exists") s
      | none =>
          { s with
            currentWord := some { name := word_name, func := none, code := [],
                                  immediate := false }
            state := true
            codeSp := 0 }

/-- semicolon: outside compile mode or without a current word it is an
error; otherwise copy the first `code_sp` cells of the code buffer into
the word, add the word to the dictionary, and return to interpret mode.
The branch stack is not consulted. -/
def semicolon (s : Machine) : Machine :=
  if s.state = false then error ("Misplaced ;") s
  else
    match s.currentWord with
    | none => error ("No word being defined") s
    | some w =>
        let sealed : Word := { w with code := (List.range s.codeSp).map s.codeBuffer }
        let s := dict_add sealed s
        { s with state := false, currentWord := none, codeSp := 0 }

/-- begin_word: record the current code position on the branch stack. -/
def begin_word (s : Machine) : Machine :=
  if s.state then
    branch_stack_push s.codeSp ControlFlowType.CF_BEGIN s
  else error ("BEGIN used outside of compilation mode") s

/-- until_word: pop the BEGIN entry and emit `OP_0BRANCH, OP_LIT, off`
where `off = origin - code_sp` is read with `code_sp` at the offset
slot's own index (the value C's `code_buffer[code_sp++] = origin -
code_sp` stores). -/
def until_word (s : Machine) : Machine :=
  if s.state then
    if branch_stack_empty s then error ("UNTIL without matching BEGIN") s
    else
      let (entry, s) := branch_stack_pop s
      if entry.type ≠ ControlFlowType.CF_BEGIN then
        error ("UNTIL without matching BEGIN") s
      else
        let s := emit OP_0BRANCH s
        let s := emit OP_LIT s
        emit ((entry.origin : Int) - (s.codeSp : Int)) s
  else error ("UNTIL used outside of compilation mode") s

/-- while_word: with a BEGIN on top, push a WHILE entry recording the
current code position and emit `OP_0BRANCH, OP_LIT, 0`. -/
def while_word (s : Machine) : Machine :=
  if s.state then
    if branch_stack_empty s then error ("WHILE without matching BEGIN") s
    else
      let (entry, s) := branch_stack_peek s
      if entry.type ≠ ControlFlowType.CF_BEGIN then
        error ("WHILE without matching BEGIN") s
      else
        let s := branch_stack_push s.codeSp ControlFlowType.CF_WHILE s
        let s := emit OP_0BRANCH s
        let s := emit OP_LIT s
        emit 0 s
  else error ("WHILE used outside of compilation mode") s

/-- repeat_word: pop the WHILE then the BEGIN entry, emit
`OP_BRANCH, OP_LIT, begin_origin - code_sp`, then patch the WHILE's
offset slot with `code_sp - (while_origin + 2)`. -/
def repeat_word (s : Machine) : Machine :=
  if s.state then
    if branch_stack_empty s then error ("REPEAT without matching BEGIN-WHILE") s
    else
      let (while_entry, s) := branch_stack_pop s
      if while_entry.type ≠ ControlFlowType.CF_WHILE then
        error ("REPEAT without matching WHILE") s
      else
        if branch_stack_empty s then error ("REPEAT without matching BEGIN") s
        else
          let (begin_entry, s) := branch_stack_pop s
          if begin_entry.type ≠ ControlFlowType.CF_BEGIN then
            error ("REPEAT without matching BEGIN") s
          else
            let s := emit OP_BRANCH s
            let s := emit OP_LIT s
            let s := emit ((begin_entry.origin : Int) - (s.codeSp : Int)) s
            code_write (while_entry.origin + 2)
              ((s.codeSp : Int) - ((while_entry.origin : Int) + 2)) s
  else error ("REPEAT used outside of compilation mode") s

/-- do_word: push a DO entry recording the current code position and emit
the single cell `OP_DO`. -/
def do_word (s : Machine) : Machine :=
  if s.state then
    let s := branch_stack_push s.codeSp ControlFlowType.CF_DO s
    emit OP_DO s
  else error ("DO used outside of compilation mode") s

/-- loop_word: pop the DO entry and emit `OP_LOOP, OP_LIT, off` with
`off = origin + 1 - code_sp` read at the offset slot's own index. -/
def loop_word (s : Machine) : Machine :=
  if s.state then
    if branch_stack_empty s then error ("LOOP without matching DO") s
    else
      let (entry, s) := branch_stack_pop s
      if entry.type ≠ ControlFlowType.CF_DO then
        error ("LOOP without matching DO") s
      else
        let s := emit OP_LOOP s
        let s := emit OP_LIT s
        emit ((entry.origin : Int) + 1 - (s.codeSp : Int)) s
  else error ("LOOP used outside of compilation mode") s

/-- Dispatch a built-in handler identity to its implementation (the
function-pointer call `word->func()`). -/
def execPrim : Prim → Machine → Machine
  | .plusP, s => plus s
  | .minusP, s => minus s
  | .starP, s => star s
  | .slashP, s => slash s
  | .modP, s => modW s
  | .dupP, s => dup s
  | .dropP, s => drop s
  | .swapP, s => swap s
  | .overP, s => over s
  | .rotP, s => rot s
  | .nipP, s => nip s
  | .tuckP, s => tuck s
  | .equalP, s => equal s
  | .lessThanP, s => less_than s
  | .greaterThanP, s => greater_than s
  | .lessEqualP, s => less_equal s
  | .greaterEqualP, s => greater_equal s
  | .notEqualP, s => not_equal s
  | .andOpP, s => and_op s
  | .orOpP, s => or_op s
  | .notOpP, s => not_op s
  | .storeP, s => store s
  | .fetchP, s => fetch s
  | .createP, s => create_word s
  | .variableP, s => variable_word s
  | .constantP, s => constant_word s
  | .dotP, s => dot s
  | .dotQuoteP, s => dot_quote s
  | .cellsP, s => cells_word s
  | .allotP, s => allot_word s
  | .iP, s => i_word s
  | .jP, s => j_word s
  | .dotSP, s => dot_s s
  | .crP, s => cr s
  | .ifP, s => if_word s
  | .thenP, s => then_word s
  | .elseP, s => else_word s
  | .beginP, s => begin_word s
  | .untilP, s => until_word s
  | .whileP, s => while_word s
  | .repeatP, s => repeat_word s
  | .doP, s => do_word s
  | .loopP, s => loop_word s
  | .endP, s => end_word s
  | .colonP, s => colon s
  | .semicolonP, s => semicolon s

/-- The integer value standing for the `Word*` of the word at dictionary
index `idx` (see the modelling note at the top of the file). -/
def wordAddr (idx : Nat) : Int :=
  1000000 + (idx : Int)

/-- Dereference a code cell that the executor classified as a word
pointer (`1000 < item < 10^16`), keeping the C check that the pointed-to
word has a non-empty name. -/
def dict_deref (s : Machine) (item : Int) : Option Word :=
  let idx : Int := item - 1000000
  if 0 ≤ idx ∧ idx < (s.dict.length : Int) then
    match s.dict.get? idx.toNat with
    | some w => if w.name ≠ "" then some w else none
    | none => none
  else none

/-- Read `word->code[j]`.  A read outside the array is undefined
behaviour in C; it is totalised as 0 and never reached below. -/
def getCell (code : List Int) (j : Int) : Int :=
  if 0 ≤ j then (code.get? j.toNat).getD 0 else 0

/-- The threaded-code walk of execute_word (forth.c lines 698-793), with
the program counter `i` and the for-loop's `i++` folded into an explicit
next position for each case:
* `OP_LIT`: push the next cell, continue at `i + 2`;
* `OP_BRANCH`: continue at `i + 2 + offset`;
* `OP_0BRANCH`: pop the flag; continue at `i + 2 + offset` when it is 0,
  at `i + 3` otherwise;
* `OP_DO`: pop start then limit, push limit then start on the return
  stack, continue at `i + 1`;
* `OP_LOOP`: pop the index, peek the limit, increment the index; when
  `index < limit` push it back and continue at `i + 2 + offset`;
  otherwise pop the limit and continue at `i + 1` — the C for-loop only
  performs its `i++` here, so the next cell executed is the `OP_LIT`
  operand marker of the loop offset, not the instruction after it;
* a value in the pointer window `1000 < item < 10^16`: execute the
  referenced word (the recursive `execute_word` call is inlined so that
  the recursion is structural on the fuel), continue at `i + 1`;
* any other value: push it, continue at `i + 1`.
The loop stops when `i` leaves the code array (the C condition is
`i < code_size`; a negative `i` would be an out-of-bounds read and is
never reached) or when the fuel runs out. -/
def exec_code : Nat → List Int → Int → Machine → Machine
  | 0, _, _, s => s
  | Nat.succ fuel, code, i, s =>
      if 0 ≤ i ∧ i < (code.length : Int) then
        let item := getCell code i
        if item = OP_LIT then
          let s := stack_push (getCell code (i + 1)) s
          exec_code fuel code (i + 2) s
        else if item = OP_BRANCH then
          let offset := getCell code (i + 2)
          exec_code fuel code (i + 2 + offset) s
        else if item = OP_0BRANCH then
          let offset := getCell code (i + 2)
          let (top, s) := stack_pop s
          if top = 0 then exec_code fuel code (i + 2 + offset) s
          else exec_code fuel code (i + 3) s
        else if item = OP_DO then
          let (start, s) := stack_pop s
          let (limit, s) := stack_pop s
          let s := rstack_push limit s
          let s := rstack_push start s
          exec_code fuel code (i + 1) s
        else if item = OP_LOOP then
          let (index, s) := rstack_pop s
          let (limit, s) := rstack_peek s
          let index := index + 1
          if index < limit then
            let s := rstack_push index s
            let offset := getCell code (i + 2)
            exec_code fuel code (i + 2 + offset) s
          else
            let (_, s) := rstack_pop s
            exec_code fuel code (i + 1) s
        else if 1000 < item ∧ item < 10000000000000000 then
          match dict_deref s item with
          | some w =>
              let s :=
                match w.func with
                | some p => execPrim p s
                | none => exec_code fuel w.code 0 s
              exec_code fuel code (i + 1) s
          | none =>
              let s := error ("Invalid word reference") s
              exec_code fuel code (i + 1) s
        else
          let s := stack_push item s
          exec_code fuel code (i + 1) s
      else s

/-- execute_word: built-in words run their handler; user-defined words
run their threaded code from position 0. -/
def execute_word (fuel : Nat) (w : Word) (s : Machine) : Machine :=
  match w.func with
  | some p => execPrim p s
  | none => exec_code fuel w.code 0 s

/-- The compile-mode arm of the REPL's token loop (forth.c lines
1705-1753).  The returned flag is true exactly when the C code executes
`break`, abandoning the rest of the input line: on code-buffer overflow
and on an unknown word.  Immediate words execute; other known words are
compiled as word references; numeric tokens are compiled as
`OP_LIT, value`. -/
def compile_token (fuel : Nat) (tok : String) (s : Machine) : Machine × Bool :=
  match dict_find s tok with
  | some (idx, w) =>
      if w.immediate then (execute_word fuel w s, false)
      else if s.codeSp ≥ STACK_SIZE then
        let s := error ("Code buffer overflow") s
        ({ s with state := false, currentWord := none }, true)
      else (emit (wordAddr idx) s, false)
  | none =>
      match parse_num tok with
      | some num =>
          if s.codeSp ≥ STACK_SIZE - 1 then
            let s := error ("Code buffer overflow") s
            ({ s with state := false, currentWord := none }, true)
          else
            let s := emit OP_LIT s
            (emit num s, false)
      | none =>
          let s := error ("Unknown word in compilation") s
          ({ s with state := false, currentWord := none }, true)

/-- The interpret-mode arm of the REPL's token loop (forth.c lines
1755-1777): execute a known word, push a numeric token, report any other
token as an unknown word.  No arm leaves the token loop. -/
def interpret_token (fuel : Nat) (tok : String) (s : Machine) : Machine :=
  match dict_find s tok with
  | some (_, w) => execute_word fuel w s
  | none =>
      match parse_num tok with
      | some num => stack_push num s
      | none => error ("Unknown word") s

/-- The token loop `while (tokenize(token) != NULL)` of repl(): consume
tokens from the current line until none remain or a compile-mode arm
breaks. -/
def process_tokens : Nat → Machine → Machine
  | 0, s => s
  | Nat.succ fuel, s =>
      match tokenize s with
      | (none, s) => s
      | (some tok, s) =>
          if s.state then
            match compile_token fuel tok s with
            | (s, true) => s
            | (s, false) => process_tokens fuel s
          else
            process_tokens fuel (interpret_token fuel tok s)

/-- One iteration of repl()'s outer loop for one input line: point
`current_input`/`input_pos` at the line and run the token loop. -/
def repl_line (fuel : Nat) (s : Machine) (line : String) : Machine :=
  process_tokens fuel { s with input := line.toList }

/-- repl()'s outer loop over a list of input lines (the banner and the
`quit` test frame this loop and print/consume no tokens). -/
def run_lines (fuel : Nat) (lines : List String) (s : Machine) : Machine :=
  lines.foldl (repl_line fuel) s

/-- The 46 built-in words, in the registration order of forth_init()
(forth.c lines 1195-1620), with the immediate flags the source sets. -/
def initWords : List Word :=
  [ { name := "+", func := some .plusP, code := [], immediate := false },
    { name := "-", func := some .minusP, code := [], immediate := false },
    { name := "*", func := some .starP, code := [], immediate := false },
    { name := "/", func := some .slashP, code := [], immediate := false },
    { name := "mod", func := some .modP, code := [], immediate := false },
    { name := "dup", func := some .dupP, code := [], immediate := false },
    { name := "drop", func := some .dropP, code := [], immediate := false },
    { name := "swap", func := some .swapP, code := [], immediate := false },
    { name := "over", func := some .overP, code := [], immediate := false },
    { name := "rot", func := some .rotP, code := [], immediate := false },
    { name := "nip", func := some .nipP, code := [], immediate := false },
    { name := "tuck", func := some .tuckP, code := [], immediate := false },
    { name := "=", func := some .equalP, code := [], immediate := false },
    { name := "<", func := some .lessThanP, code := [], immediate := false },
    { name := ">", func := some .greaterThanP, code := [], immediate := false },
    { name := "<=", func := some .lessEqualP, code := [], immediate := false },
    { name := ">=", func := some .greaterEqualP, code := [], immediate := false },
    { name := "<>", func := some .notEqualP, code := [], immediate := false },
    { name := "and", func := some .andOpP, code := [], immediate := false },
    { name := "or", func := some .orOpP, code := [], immediate := false },
    { name := "not", func := some .notOpP, code := [], immediate := false },
    { name := "!", func := some .storeP, code := [], immediate := false },
    { name := "@", func := some .fetchP, code := [], immediate := false },
    { name := "CREATE", func := some .createP, code := [], immediate := false },
    { name := "VARIABLE", func := some .variableP, code := [], immediate := false },
    { name := "CONSTANT", func := some .constantP, code := [], immediate := false },
    { name := ".", func := some .dotP, code := [], immediate := false },
    { name := ".\"", func := some .dotQuoteP, code := [], immediate := true },
    { name := "cells", func := some .cellsP, code := [], immediate := false },
    { name := "allot", func := some .allotP, code := [], immediate := false },
    { name := "i", func := some .iP, code := [], immediate := false },
    { name := "j", func := some .jP, code := [], immediate := false },
    { name := ".s", func := some .dotSP, code := [], immediate := false },
    { name := "cr", func := some .crP, code := [], immediate := false },
    { name := "if", func := some .ifP, code := [], immediate := true },
    { name := "then", func := some .thenP, code := [], immediate := true },
    { name := "else", func := some .elseP, code := [], immediate := true },
    { name := "begin", func := some .beginP, code := [], immediate := true },
    { name := "until", func := some .untilP, code := [], immediate := true },
    { name := "while", func := some .whileP, code := [], immediate := true },
    { name := "repeat", func := some .repeatP, code := [], immediate := true },
    { name := "do", func := some .doP, code := [], immediate := true },
    { name := "loop", func := some .loopP, code := [], immediate := true },
    { name := "end", func := some .endP, code := [], immediate := true },
    { name := ":", func := some .colonP, code := [], immediate := true },
    { name := ";", func := some .semicolonP, code := [], immediate := true } ]

/-- forth_init(): empty stacks, interpret mode, decimal base, zeroed
memory and code buffer, and the dictionary of built-ins. -/
def forth_init : Machine :=
  { dataStack := []
    returnStack := []
    branchStack := []
    dict := initWords
    memory := fun _ => 0
    base := 10
    state := false
    codeBuffer := fun _ => 0
    codeSp := 0
    currentWord := none
    nextMemAddr := 0
    input := []
    out := []
    err := []
    codeWrites := [] }

/-- Everything the session printed to stdout, in order. -/
def stdout (s : Machine) : String :=
  String.join s.out

/-- Run a list of input lines from the freshly initialised interpreter,
with ample fuel for the concrete programs considered here. -/
def runF (lines : List String) : Machine :=
  run_lines 100000 lines forth_init

/-- Input reaching `if` with the code buffer almost full: `: T`, then 511
numeric literals spread over lines short enough for the 256-byte line
buffer (7 lines of 64 zeros and one of 63), each literal emitting two
cells (`code_sp` reaches 1022), then `if`. -/
def c10_lines : List String :=
  [": T"] ++ List.replicate 7 (String.join (List.replicate 64 "0 "))
    ++ [String.join (List.replicate 63 "0 "), "if"]

/-- Claim C1: for `: T  dup 0 < if -1 else 1 then ;`, the claim says
`-7 T .` prints `-1 ` and `0 T .` and `42 T .` each print `1 `.  The
negative case does print `-1 `, but `0 T .` prints `0 ` and `42 T .`
prints `42 `: `else_word` patches the pending if-branch offset with
`(code_sp + 3) - (origin + 2)`, three cells past the start of the else
branch its own comment promises, so a false condition jumps beyond the
end of the definition and the `1` is never pushed. -/
theorem C1_else_branch_overshoot :
    stdout (runF [": T dup 0 < if -1 else 1 then ;", "-7 T ."]) = "-1 " ∧
    stdout (runF [": T dup 0 < if -1 else 1 then ;", "0 T ."]) = "0 " ∧
    stdout (runF [": T dup 0 < if -1 else 1 then ;", "42 T ."]) = "42 " := by
  decide

/-- Claim C2 counterexample: on the line `+ 5`, the `+` on an empty stack
fires two `Stack underflow` errors, yet the `5` that follows on the same
line is still processed and pushed (on top of the 0 that `plus` pushes
after the error handler returns).  The claim's "no further tokens from
that line are processed" would leave the data stack empty. -/
theorem C2_line_continues_after_error :
    (runF ["+ 5"]).err = ["Stack underflow", "Stack underflow"] ∧
    (runF ["+ 5"]).dataStack = [5, 0] := by
  decide

/-- Claim C2 as amended: `error` resets the data, return and branch
stacks, the mode, the code-buffer pointer and the current word to the
idle interpret-mode baseline (appending the message to stderr), but the
remainder of the input line is not discarded: interpret-mode errors leave
the token loop running, as the `+ 5` line shows. -/
theorem C2_error_resets_but_line_continues :
    (∀ (msg : String) (s : Machine),
      (error msg s).dataStack = [] ∧
      (error msg s).returnStack = [] ∧
      (error msg s).branchStack = [] ∧
      (error msg s).state = false ∧
      (error msg s).codeSp = 0 ∧
      (error msg s).currentWord = none ∧
      (error msg s).err = s.err ++ [msg]) ∧
    (runF ["+ 5"]).dataStack = [5, 0] ∧
    (runF ["+ 5"]).err ≠ [] := by
  exact ⟨fun msg s => ⟨rfl, rfl, rfl, rfl, rfl, rfl, rfl⟩, by decide, by decide⟩

/-- Claim C3 counterexample: after `: T 1 if ;` the branch stack still
holds the unclosed IF entry, yet no error of any kind was reported and
`T` was added to the dictionary — `semicolon` never looks at the branch
stack, contradicting the claimed `UnclosedControlStructure` failure. -/
theorem C3_no_unclosed_error :
    (runF [": T 1 if ;"]).err = [] ∧
    (runF [": T 1 if ;"]).branchStack ≠ [] ∧
    (dict_find (runF [": T 1 if ;"]) ("T")).isSome = true := by
  decide

/-- Claim C3 as amended: when `;` fires in compile mode with a word under
definition, the word (with the code emitted so far, here the dangling
`OP_0BRANCH, OP_LIT, 0`) is added to the dictionary and mode returns to
Interpreting unconditionally; the unclosed `if` causes no error and its
stale entry stays on the branch stack. -/
theorem C3_semicolon_ignores_branch_stack :
    (runF [": T 1 if ;"]).state = false ∧
    (runF [": T 1 if ;"]).branchStack = [⟨2, ControlFlowType.CF_IF⟩] ∧
    (runF [": T 1 if ;"]).err = [] ∧
    (dict_find (runF [": T 1 if ;"]) ("T")).map (fun p => p.2.code) =
      some [OP_LIT, 1, OP_0BRANCH, OP_LIT, 0] ∧
    (runF [": T 1 if ;"]).dict.length = 47 := by
  decide

/-- Claim C4 counterexample: `VARIABLE x` twice puts two words named `x`
into the dictionary with no error — `variable_word` (like `constant_word`
and `create_word`) performs no duplicate-name check, so dictionary names
are not unique and the dictionary does not stay unchanged. -/
theorem C4_variable_allows_duplicate :
    ((runF ["VARIABLE x", "VARIABLE x"]).dict.filter
        (fun w => w.name = "x")).length = 2 ∧
    (runF ["VARIABLE x", "VARIABLE x"]).err = [] := by
  decide

/-- Claim C4 as amended: only `:` rejects a name that already exists
(error `Word already exists`, dictionary unchanged); `VARIABLE`,
`CONSTANT` and `CREATE` check nothing and append a second word with the
same name. -/
theorem C4_only_colon_rejects_duplicates :
    ((runF ["VARIABLE x", "VARIABLE x"]).dict.filter
        (fun w => w.name = "x")).length = 2 ∧
    ((runF ["5 CONSTANT x", "6 CONSTANT x"]).dict.filter
        (fun w => w.name = "x")).length = 2 ∧
    ((runF ["CREATE x", "CREATE x"]).dict.filter
        (fun w => w.name = "x")).length = 2 ∧
    (runF ["VARIABLE x", ": x"]).err = ["Word already exists"] ∧
    ((runF ["VARIABLE x", ": x"]).dict.filter
        (fun w => w.name = "x")).length = 1 ∧
    (runF ["VARIABLE x", ": x"]).dict.length = 47 ∧
    (runF ["VARIABLE x", ": x"]).state = false := by
  decide

/-- Claim C5 counterexample: compiling `: T ." hi" ;` already prints `hi`
during compilation, and the sealed `T` has an empty code vector, so
nothing was recorded to print when `T` later runs — against the claim
that the string is recorded and printed only at run time. -/
theorem C5_dot_quote_prints_at_compile :
    stdout (runF [": T .\" hi\" ;"]) = "hi" ∧
    (dict_find (runF [": T .\" hi\" ;"]) ("T")).map (fun p => p.2.code) =
      some [] := by
  decide

/-- Claim C5 as amended: `."` is immediate and prints its parsed string
at once in both modes; inside a colon definition nothing is recorded in
the word being compiled, so running the word prints nothing further
(stdout is still just `hi` after executing `T`). -/
theorem C5_dot_quote_immediate_print :
    stdout (runF [".\" hi\""]) = "hi" ∧
    stdout (runF [": T .\" hi\" ;", "T"]) = "hi" ∧
    (dict_find (runF [": T .\" hi\" ;", "T"]) ("T")).map (fun p => p.2.code) =
      some [] := by
  decide

/-- Claim C6 counterexample: after `: T  begin dup 1 - dup 0 = until
drop ;`, executing `5 T` does not leave the data stack empty. -/
theorem C6_stack_not_empty :
    (runF [": T begin dup 1 - dup 0 = until drop ;", "5 T"]).dataStack ≠ [] := by
  decide

/-- Claim C6 as amended: each pass of the `begin ... until` body nets one
extra cell (`dup 1 - dup 0 =` turns `n` into `n, n-1, flag`), so `5 T`
drops only the final 0 and leaves 5 4 3 2 1 on the data stack (top of
stack first in this list), with no error. -/
theorem C6_until_leaves_counters :
    (runF [": T begin dup 1 - dup 0 = until drop ;", "5 T"]).dataStack =
      [1, 2, 3, 4, 5] ∧
    (runF [": T begin dup 1 - dup 0 = until drop ;", "5 T"]).err = [] := by
  decide

/-- Claim C7 counterexample: `+` on an empty stack reports `Stack
underflow` twice (once per operand pop) and then pushes 0 + 0, so the
data stack holds a single 0 immediately afterwards — not empty as the
claim states. -/
theorem C7_plus_leaves_zero :
    (runF ["+"]).dataStack = [0] ∧
    (runF ["+"]).err = ["Stack underflow", "Stack underflow"] := by
  decide

/-- Claim C7 as amended: `+` on an empty stack reports `Stack underflow`
(twice), the handler clears the stacks and then pushes 0, leaving the
data stack as `[0]`; the next line `1 2 + .` still prints `3 ` (the
stray 0 stays below). -/
theorem C7_underflow_recovery :
    (runF ["+"]).dataStack = [0] ∧
    (runF ["+"]).err = ["Stack underflow", "Stack underflow"] ∧
    stdout (runF ["+", "1 2 + ."]) = "3 " ∧
    (runF ["+", "1 2 + ."]).dataStack = [0] := by
  decide

/-- Claim C8: the claim says the LOOP exit step pops the limit, advances
by 2 and leaves the data stack unchanged.  The code pops the limit but
advances only by the for-loop's `i++`: execution lands on the `OP_LIT`
operand marker of the loop offset and pushes the offset itself.  For
`: T 1 0 do loop ;` the sealed code is
`OP_LIT 1, OP_LIT 0, OP_DO, OP_LOOP, OP_LIT, -2`, and running `T` ends
with the branch offset -2 on the data stack. -/
theorem C8_loop_exit_pushes_offset :
    (dict_find (runF [": T 1 0 do loop ;", "T"]) ("T")).map (fun p => p.2.code) =
      some [OP_LIT, 1, OP_LIT, 0, OP_DO, OP_LOOP, OP_LIT, -2] ∧
    (runF [": T 1 0 do loop ;", "T"]).dataStack = [-2] ∧
    (runF [": T 1 0 do loop ;", "T"]).returnStack = [] ∧
    stdout (runF [": T 1 0 do loop ;", "T"]) = "" := by
  decide

/-- Claim C9: after `: T  10 0 do i . loop ;`, executing `T` prints
exactly `0 1 2 3 4 5 6 7 8 9 ` to standard output, each number followed
by one space including the last. -/
theorem C9_do_loop_prints :
    stdout (runF [": T 10 0 do i . loop ;", "T"]) = "0 1 2 3 4 5 6 7 8 9 " := by
  decide

set_option maxRecDepth 400000 in
/-- Claim C10: the claim says every code-buffer write stays within the
1024-cell capacity even when control-flow words fire near the limit.
Reaching `if` with `code_sp = 1022` (`: T` plus 511 literals on lines
under the 256-byte line limit) makes `if_word` — which checks no bounds —
write at indices 1022, 1023 and 1024; index 1024 is one past the last
valid index of `code_buffer[STACK_SIZE]`, and `code_sp` ends at 1025 with
no error reported. -/
theorem C10_if_word_overruns_code_buffer :
    (runF c10_lines).codeSp = 1025 ∧
    1024 ∈ (runF c10_lines).codeWrites ∧
    (runF c10_lines).err = [] ∧
    STACK_SIZE = 1024 := by
  decide

end Forth
